import Mathlib

/-!
Verification of the synthetic Query Store DMV generator
(`demos/004_sql_dmv/synthetic_dmv_generator`).

Shallow embedding conventions:
* Python floats are modelled as `ℚ` (all arithmetic in the generator is
  exact products, sums and divisions of sampled values).
* `datetime` values are modelled as `ℤ` microseconds since an epoch where
  interval arithmetic matters, and as `ℚ` seconds where the source works
  with `total_seconds()` floats.
* The numpy random generator is modelled as an abstract deterministic
  stream of draws derived from the integer seed; each draw site receives
  its value from that stream.  Hypotheses on theorems reflect the ranges
  the corresponding numpy samplers guarantee (for example
  `rng.uniform(0.6, 0.95)` yields values in `[0.6, 0.95)`).
-/

/-! ## List statistics

`numpy.mean`, `numpy.min`, `numpy.max` and the `samples[-1]` access used by
`_generate_runtime_statistics` / `_generate_wait_statistics`, modelled on
`List ℚ`.  The generator only ever applies them to non-empty sample arrays
(`exec_count = max(1, ...)`); the value on `[]` is an arbitrary default. -/

def avgList (l : List ℚ) : ℚ := l.sum / l.length

def minList : List ℚ → ℚ
  | [] => 0
  | [x] => x
  | x :: y :: xs => min x (minList (y :: xs))

def maxList : List ℚ → ℚ
  | [] => 0
  | [x] => x
  | x :: y :: xs => max x (maxList (y :: xs))

def lastList : List ℚ → ℚ
  | [] => 0
  | [x] => x
  | _ :: y :: xs => lastList (y :: xs)

theorem minList_le_mem {l : List ℚ} {y : ℚ} (hy : y ∈ l) : minList l ≤ y := by
  induction l with
  | nil => cases hy
  | cons x xs ih =>
    cases xs with
    | nil =>
      rcases List.mem_cons.mp hy with h | h
      · simp [minList, h]
      · simp at h
    | cons z zs =>
      rcases List.mem_cons.mp hy with h | h
      · subst h; exact min_le_left _ _
      · exact le_trans (min_le_right _ _) (ih h)

theorem mem_le_maxList {l : List ℚ} {y : ℚ} (hy : y ∈ l) : y ≤ maxList l := by
  induction l with
  | nil => cases hy
  | cons x xs ih =>
    cases xs with
    | nil =>
      rcases List.mem_cons.mp hy with h | h
      · simp [maxList, h]
      · simp at h
    | cons z zs =>
      rcases List.mem_cons.mp hy with h | h
      · subst h; exact le_max_left _ _
      · exact le_trans (ih h) (le_max_right _ _)

theorem lastList_mem {l : List ℚ} (h : l ≠ []) : lastList l ∈ l := by
  induction l with
  | nil => exact absurd rfl h
  | cons x xs ih =>
    cases xs with
    | nil => simp [lastList]
    | cons z zs =>
      have : lastList (z :: zs) ∈ z :: zs := ih (by simp)
      simp only [lastList]
      exact List.mem_cons_of_mem _ this

theorem length_mul_minList_le_sum {l : List ℚ} :
    (l.length : ℚ) * minList l ≤ l.sum := by
  induction l with
  | nil => simp
  | cons x xs ih =>
    cases xs with
    | nil => simp [minList]
    | cons z zs =>
      have hmin : minList (x :: z :: zs) = min x (minList (z :: zs)) := rfl
      have hlen : ((x :: z :: zs).length : ℚ) = ((z :: zs).length : ℚ) + 1 := by
        push_cast [List.length_cons]; ring
      have h1 : ((z :: zs).length : ℚ) * min x (minList (z :: zs)) ≤
          ((z :: zs).length : ℚ) * minList (z :: zs) := by
        have hnn : (0 : ℚ) ≤ ((z :: zs).length : ℚ) := by positivity
        exact mul_le_mul_of_nonneg_left (min_le_right _ _) hnn
      have h2 : min x (minList (z :: zs)) ≤ x := min_le_left _ _
      calc ((x :: z :: zs).length : ℚ) * minList (x :: z :: zs)
          = ((z :: zs).length : ℚ) * min x (minList (z :: zs)) +
            min x (minList (z :: zs)) := by rw [hmin, hlen]; ring
        _ ≤ ((z :: zs).length : ℚ) * minList (z :: zs) + x := add_le_add h1 h2
        _ ≤ (z :: zs).sum + x := by linarith [ih]
        _ = (x :: z :: zs).sum := by simp [List.sum_cons]; ring

theorem sum_le_length_mul_maxList {l : List ℚ} :
    l.sum ≤ (l.length : ℚ) * maxList l := by
  induction l with
  | nil => simp
  | cons x xs ih =>
    cases xs with
    | nil => simp [maxList]
    | cons z zs =>
      have hmax : maxList (x :: z :: zs) = max x (maxList (z :: zs)) := rfl
      have hlen : ((x :: z :: zs).length : ℚ) = ((z :: zs).length : ℚ) + 1 := by
        push_cast [List.length_cons]; ring
      have h1 : ((z :: zs).length : ℚ) * maxList (z :: zs) ≤
          ((z :: zs).length : ℚ) * max x (maxList (z :: zs)) := by
        have hnn : (0 : ℚ) ≤ ((z :: zs).length : ℚ) := by positivity
        exact mul_le_mul_of_nonneg_left (le_max_right _ _) hnn
      have h2 : x ≤ max x (maxList (z :: zs)) := le_max_left _ _
      calc (x :: z :: zs).sum = (z :: zs).sum + x := by simp [List.sum_cons]; ring
        _ ≤ ((z :: zs).length : ℚ) * maxList (z :: zs) + x := by linarith [ih]
        _ ≤ ((z :: zs).length : ℚ) * max x (maxList (z :: zs)) +
            max x (maxList (z :: zs)) := add_le_add h1 h2
        _ = ((x :: z :: zs).length : ℚ) * maxList (x :: z :: zs) := by
            rw [hmax, hlen]; ring

theorem minList_le_avgList {l : List ℚ} (h : l ≠ []) : minList l ≤ avgList l := by
  have hlen : (0 : ℚ) < (l.length : ℚ) := by
    have : 0 < l.length := List.length_pos.mpr h
    exact_mod_cast this
  rw [avgList, le_div_iff₀ hlen]
  calc minList l * (l.length : ℚ) = (l.length : ℚ) * minList l := by ring
    _ ≤ l.sum := length_mul_minList_le_sum

theorem avgList_le_maxList {l : List ℚ} (h : l ≠ []) : avgList l ≤ maxList l := by
  have hlen : (0 : ℚ) < (l.length : ℚ) := by
    have : 0 < l.length := List.length_pos.mpr h
    exact_mod_cast this
  rw [avgList, div_le_iff₀ hlen]
  calc l.sum ≤ (l.length : ℚ) * maxList l := sum_le_length_mul_maxList
    _ = maxList l * (l.length : ℚ) := by ring

theorem minList_le_lastList {l : List ℚ} (h : l ≠ []) : minList l ≤ lastList l :=
  minList_le_mem (lastList_mem h)

theorem lastList_le_maxList {l : List ℚ} (h : l ≠ []) : lastList l ≤ maxList l :=
  mem_le_maxList (lastList_mem h)

/-! ## Workload catalog

Embedding of `config.py` (`QueryTypeProfile`, the three profile presets)
and `generators/workload_patterns.py` (`WorkloadScenario`, the eight
scenario presets, `get_workload_by_name`, `list_available_workloads`). -/

structure QueryTypeProfile where
  name : String
  avg_duration_ms : ℚ
  duration_stddev : ℚ
  avg_cpu_ms : ℚ
  cpu_stddev : ℚ
  avg_logical_reads : ℚ
  logical_reads_stddev : ℚ
  avg_rows : ℚ
  rows_stddev : ℚ
  execution_frequency : ℚ
  deriving DecidableEq, Repr

def OLTP_PROFILE : QueryTypeProfile :=
  { name := "OLTP", avg_duration_ms := 50, duration_stddev := 20,
    avg_cpu_ms := 30, cpu_stddev := 15, avg_logical_reads := 100,
    logical_reads_stddev := 50, avg_rows := 10, rows_stddev := 5,
    execution_frequency := 500 }

def OLAP_PROFILE : QueryTypeProfile :=
  { name := "OLAP", avg_duration_ms := 5000, duration_stddev := 2000,
    avg_cpu_ms := 4000, cpu_stddev := 1500, avg_logical_reads := 100000,
    logical_reads_stddev := 50000, avg_rows := 10000, rows_stddev := 5000,
    execution_frequency := 5 }

def PROBLEM_PROFILE : QueryTypeProfile :=
  { name := "Problematic", avg_duration_ms := 15000, duration_stddev := 5000,
    avg_cpu_ms := 10000, cpu_stddev := 3000, avg_logical_reads := 500000,
    logical_reads_stddev := 200000, avg_rows := 50000, rows_stddev := 20000,
    execution_frequency := 2 }

structure WorkloadScenario where
  name : String
  description : String
  query_profiles : List (QueryTypeProfile × ℚ)
  cpu_pressure : ℚ := 1
  io_pressure : ℚ := 1
  memory_pressure : ℚ := 1
  deriving DecidableEq, Repr

def OLTP_WORKLOAD : WorkloadScenario :=
  { name := "OLTP",
    description := "Online Transaction Processing - fast, frequent queries",
    query_profiles := [(OLTP_PROFILE, 0.95), (OLAP_PROFILE, 0.05)],
    cpu_pressure := 0.8, io_pressure := 0.7, memory_pressure := 0.8 }

def OLAP_WORKLOAD : WorkloadScenario :=
  { name := "OLAP",
    description := "Online Analytical Processing - slow, complex analytical queries",
    query_profiles := [(OLAP_PROFILE, 0.8), (OLTP_PROFILE, 0.15), (PROBLEM_PROFILE, 0.05)],
    cpu_pressure := 1.5, io_pressure := 2.0, memory_pressure := 1.8 }

def MIXED_WORKLOAD : WorkloadScenario :=
  { name := "Mixed",
    description := "Mixed workload with both OLTP and OLAP queries",
    query_profiles := [(OLTP_PROFILE, 0.6), (OLAP_PROFILE, 0.3), (PROBLEM_PROFILE, 0.1)],
    cpu_pressure := 1.0, io_pressure := 1.0, memory_pressure := 1.0 }

def CPU_PRESSURE_WORKLOAD : WorkloadScenario :=
  { name := "CPU Pressure",
    description := "Workload with high CPU utilization",
    query_profiles := [(OLTP_PROFILE, 0.4), (OLAP_PROFILE, 0.4), (PROBLEM_PROFILE, 0.2)],
    cpu_pressure := 2.5, io_pressure := 1.2, memory_pressure := 1.5 }

def IO_BOTTLENECK_WORKLOAD : WorkloadScenario :=
  { name := "I/O Bottleneck",
    description := "Workload with high I/O pressure and slow disk responses",
    query_profiles := [(OLAP_PROFILE, 0.6), (PROBLEM_PROFILE, 0.3), (OLTP_PROFILE, 0.1)],
    cpu_pressure := 1.2, io_pressure := 3.0, memory_pressure := 1.0 }

def MEMORY_PRESSURE_WORKLOAD : WorkloadScenario :=
  { name := "Memory Pressure",
    description := "Workload with insufficient memory causing spills to tempdb",
    query_profiles := [(OLAP_PROFILE, 0.5), (PROBLEM_PROFILE, 0.4), (OLTP_PROFILE, 0.1)],
    cpu_pressure := 1.3, io_pressure := 1.8, memory_pressure := 3.0 }

def BLOCKING_WORKLOAD : WorkloadScenario :=
  { name := "Blocking/Locking",
    description := "Workload with high contention and blocking",
    query_profiles := [(OLTP_PROFILE, 0.7), (OLAP_PROFILE, 0.2), (PROBLEM_PROFILE, 0.1)],
    cpu_pressure := 0.6, io_pressure := 1.0, memory_pressure := 1.0 }

def PARAMETER_SNIFFING_WORKLOAD : WorkloadScenario :=
  { name := "Parameter Sniffing",
    description := "Queries with parameter sniffing issues causing performance variability",
    query_profiles := [(OLTP_PROFILE, 0.5), (PROBLEM_PROFILE, 0.5)],
    cpu_pressure := 1.5, io_pressure := 1.5, memory_pressure := 1.2 }

/-- The eight predefined scenario constants of `workload_patterns.py`, in the
order they appear in the module and in the lookup dict of
`get_workload_by_name`. -/
def workloadCatalog : List WorkloadScenario :=
  [OLTP_WORKLOAD, OLAP_WORKLOAD, MIXED_WORKLOAD, CPU_PRESSURE_WORKLOAD,
   IO_BOTTLENECK_WORKLOAD, MEMORY_PRESSURE_WORKLOAD, BLOCKING_WORKLOAD,
   PARAMETER_SNIFFING_WORKLOAD]

/-- The key→scenario dict built inside `get_workload_by_name`. -/
def workloadFor : String → Option WorkloadScenario := fun s =>
  if s = "oltp" then some OLTP_WORKLOAD
  else if s = "olap" then some OLAP_WORKLOAD
  else if s = "mixed" then some MIXED_WORKLOAD
  else if s = "cpu_pressure" then some CPU_PRESSURE_WORKLOAD
  else if s = "io_bottleneck" then some IO_BOTTLENECK_WORKLOAD
  else if s = "memory_pressure" then some MEMORY_PRESSURE_WORKLOAD
  else if s = "blocking" then some BLOCKING_WORKLOAD
  else if s = "parameter_sniffing" then some PARAMETER_SNIFFING_WORKLOAD
  else none

/-- `list_available_workloads` from `workload_patterns.py`. -/
def list_available_workloads : List String :=
  ["oltp", "olap", "mixed", "cpu_pressure", "io_bottleneck",
   "memory_pressure", "blocking", "parameter_sniffing"]

/-- Python's `str.lower()` on the ASCII range (all workload keys are
ASCII), written over the character list so that it is kernel-computable. -/
def pyLower (s : String) : String := String.mk (s.data.map Char.toLower)

/-- `get_workload_by_name` from `workload_patterns.py`: lower-cases the
name, looks it up in the dict, and otherwise raises a `ValueError` whose
message lists the dict keys (modelled as `Except.error`).  The `\x27`
escapes are the single quotes of the Python f-string. -/
def get_workload_by_name (name : String) : Except String WorkloadScenario :=
  match workloadFor (pyLower name) with
  | some w => Except.ok w
  | none => Except.error
      ("Unknown workload \x27" ++ name ++ "\x27. Available: " ++
        String.intercalate ", " list_available_workloads)

/-- Sum of the proportions in a scenario's `query_profiles` list. -/
def sumProportions (w : WorkloadScenario) : ℚ :=
  (w.query_profiles.map (fun p => p.2)).sum

/-! ## Correlation engine and runtime-statistics records

Embedding of `CorrelationGenerator.cpu_from_duration`
(`utils/distributions.py`), the pressure-factor application of
`_generate_runtime_statistics` (`generators/synthetic_generator.py`,
lines 196-205), and the `RuntimeStats` / `WaitStats` record construction
(lines 226-275 and 300-317).  The per-sample uniform draws of
`rng.uniform(0.6, 0.95, len(durations))` appear as the explicit list
`cpu_ratios`; the numpy sampler guarantees each ratio lies in
`[0.6, 0.95)`, which the theorems take as a hypothesis. -/

def cpu_from_duration (durations cpu_ratios : List ℚ) : List ℚ :=
  List.zipWith (fun d u => d * u) durations cpu_ratios

/-- Lines 204-205 of `synthetic_generator.py`:
`duration_samples *= workload.cpu_pressure * workload.io_pressure` and
`cpu_samples *= workload.cpu_pressure`.  Returns the scaled
`(duration_samples, cpu_samples)`. -/
def applyPressureFactors (w : WorkloadScenario) (duration_samples cpu_samples : List ℚ) :
    List ℚ × List ℚ :=
  (duration_samples.map (fun d => d * (w.cpu_pressure * w.io_pressure)),
   cpu_samples.map (fun c => c * w.cpu_pressure))

structure RuntimeStats where
  runtime_stats_id : ℕ
  plan_id : ℕ
  runtime_stats_interval_id : ℕ
  execution_type_id : ℕ
  execution_type : String
  first_execution_time : ℚ
  last_execution_time : ℚ
  count_executions : ℕ
  avg_duration : ℚ
  last_duration : ℚ
  min_duration : ℚ
  max_duration : ℚ
  avg_cpu_time : ℚ
  last_cpu_time : ℚ
  min_cpu_time : ℚ
  max_cpu_time : ℚ
  avg_logical_io_reads : ℚ
  last_logical_io_reads : ℚ
  min_logical_io_reads : ℚ
  max_logical_io_reads : ℚ
  avg_logical_io_writes : ℚ
  last_logical_io_writes : ℚ
  min_logical_io_writes : ℚ
  max_logical_io_writes : ℚ
  avg_physical_io_reads : ℚ
  last_physical_io_reads : ℚ
  min_physical_io_reads : ℚ
  max_physical_io_reads : ℚ
  avg_clr_time : ℚ
  last_clr_time : ℚ
  min_clr_time : ℚ
  max_clr_time : ℚ
  avg_query_max_used_memory : ℚ
  last_query_max_used_memory : ℚ
  min_query_max_used_memory : ℚ
  max_query_max_used_memory : ℚ
  avg_rowcount : ℚ
  last_rowcount : ℚ
  min_rowcount : ℚ
  max_rowcount : ℚ

/-- The `RuntimeStats(...)` construction at lines 226-275 of
`synthetic_generator.py`: every statistical quadruple is
`np.mean` / `samples[-1]` / `np.min` / `np.max` of the same sample array;
logical writes and CLR time are constant 0. -/
def mkRuntimeStats (runtime_stats_id plan_id runtime_stats_interval_id : ℕ)
    (first_exec last_exec : ℚ) (exec_count : ℕ)
    (duration_samples cpu_samples logical_reads physical_reads
      memory_samples row_samples : List ℚ) : RuntimeStats :=
  { runtime_stats_id := runtime_stats_id
    plan_id := plan_id
    runtime_stats_interval_id := runtime_stats_interval_id
    execution_type_id := 0
    execution_type := "Regular"
    first_execution_time := first_exec
    last_execution_time := last_exec
    count_executions := exec_count
    avg_duration := avgList duration_samples
    last_duration := lastList duration_samples
    min_duration := minList duration_samples
    max_duration := maxList duration_samples
    avg_cpu_time := avgList cpu_samples
    last_cpu_time := lastList cpu_samples
    min_cpu_time := minList cpu_samples
    max_cpu_time := maxList cpu_samples
    avg_logical_io_reads := avgList logical_reads
    last_logical_io_reads := lastList logical_reads
    min_logical_io_reads := minList logical_reads
    max_logical_io_reads := maxList logical_reads
    avg_logical_io_writes := 0
    last_logical_io_writes := 0
    min_logical_io_writes := 0
    max_logical_io_writes := 0
    avg_physical_io_reads := avgList physical_reads
    last_physical_io_reads := lastList physical_reads
    min_physical_io_reads := minList physical_reads
    max_physical_io_reads := maxList physical_reads
    avg_clr_time := 0
    last_clr_time := 0
    min_clr_time := 0
    max_clr_time := 0
    avg_query_max_used_memory := avgList memory_samples
    last_query_max_used_memory := lastList memory_samples
    min_query_max_used_memory := minList memory_samples
    max_query_max_used_memory := maxList memory_samples
    avg_rowcount := avgList row_samples
    last_rowcount := lastList row_samples
    min_rowcount := minList row_samples
    max_rowcount := maxList row_samples }

structure WaitStats where
  plan_id : ℕ
  runtime_stats_interval_id : ℕ
  wait_category_id : ℕ
  wait_category : String
  total_query_wait_time_ms : ℚ
  avg_query_wait_time_ms : ℚ
  last_query_wait_time_ms : ℚ
  min_query_wait_time_ms : ℚ
  max_query_wait_time_ms : ℚ
  stdev_query_wait_time_ms : ℚ

/-- The `WaitStats(...)` construction at lines 306-317 of
`synthetic_generator.py`.  `np.std` (a square root, hence irrational in
general) is abstracted as the explicit argument `stdev`; the claims under
verification do not constrain it. -/
def mkWaitStats (plan_id runtime_stats_interval_id wait_category_id : ℕ)
    (wait_category : String) (wait_samples : List ℚ) (stdev : ℚ) : WaitStats :=
  { plan_id := plan_id
    runtime_stats_interval_id := runtime_stats_interval_id
    wait_category_id := wait_category_id
    wait_category := wait_category
    total_query_wait_time_ms := wait_samples.sum
    avg_query_wait_time_ms := avgList wait_samples
    last_query_wait_time_ms := lastList wait_samples
    min_query_wait_time_ms := minList wait_samples
    max_query_wait_time_ms := maxList wait_samples
    stdev_query_wait_time_ms := stdev }

/-! ## Configuration and time intervals

Embedding of `GeneratorConfig` (`config.py`) and
`BaseGenerator._generate_time_intervals` (`generators/base_generator.py`,
lines 35-52).  Datetimes are `ℤ` microseconds (the resolution of Python
`datetime`); `timedelta(hours=h)` is `h * 3600000000` microseconds. -/

structure GeneratorConfig where
  start_time : ℤ
  end_time : ℤ
  interval_hours : ℤ
  num_unique_queries : ℤ
  num_plans_per_query_low : ℤ
  num_plans_per_query_high : ℤ
  executions_per_hour_low : ℤ
  executions_per_hour_high : ℤ
  workload_type : String
  cpu_pressure_factor : ℚ
  io_pressure_factor : ℚ
  memory_pressure_factor : ℚ
  proportion_oltp : ℚ
  proportion_olap : ℚ
  proportion_problematic : ℚ
  random_seed : ℤ
  output_directory : String
  delimiter : String
  deriving DecidableEq, Repr

def microsecondsPerHour : ℤ := 3600000000

/-- The `while current_time < end_time` loop of
`_generate_time_intervals`, written with explicit fuel so that the
definition is structurally recursive and kernel-computable.  The source
loop advances `current_time` to `min(current_time + step, end_time)` each
iteration; for a positive integral `step` this advances by at least one
microsecond, so `(end_time - current_time).toNat + 1` units of fuel always
suffice and the fuel never runs out on the domain the claims quantify
over.  (For `step ≤ 0` the Python loop would not terminate; that region is
outside every claim.) -/
def genIntervalsAux (endT step : ℤ) : ℕ → ℤ → ℕ → List (ℕ × ℤ × ℤ)
  | 0, _, _ => []
  | fuel + 1, cur, id =>
    if cur < endT then
      (id, cur, min (cur + step) endT) ::
        genIntervalsAux endT step fuel (min (cur + step) endT) (id + 1)
    else []

/-- `_generate_time_intervals` from `base_generator.py`: interval ids start
at 1, steps of `interval_hours`, last interval clipped to `end_time`. -/
def generate_time_intervals (cfg : GeneratorConfig) : List (ℕ × ℤ × ℤ) :=
  genIntervalsAux cfg.end_time (cfg.interval_hours * microsecondsPerHour)
    ((cfg.end_time - cfg.start_time).toNat + 1) cfg.start_time 1

/-! ## Execution times

Embedding of `BaseGenerator._generate_execution_times`
(`base_generator.py`, lines 66-95).  Time is `ℚ` seconds here, matching
the source's `total_seconds()` float arithmetic.  The three uniform draws
are explicit arguments; the numpy ranges
(`uniform(0, d)`, `uniform(0, 0.2*d)`, `uniform(0.8*d, d)`) become
hypotheses of the theorems. -/

def generate_execution_times (interval_start interval_end : ℚ)
    (num_executions : ℕ) (single_draw first_draw last_draw : ℚ) : ℚ × ℚ :=
  if num_executions = 1 then
    (interval_start + single_draw, interval_start + single_draw)
  else
    (interval_start + first_draw, interval_start + last_draw)

/-! ## Generation pipeline, counting view

For the determinism and failure-semantics claims only the entity counts
matter.  `runCounts` mirrors the six stages of
`SyntheticDMVGenerator.generate` (`synthetic_generator.py`), recording how
many entities each stage appends:

* intervals: `_generate_intervals` — one per tuple of
  `_generate_time_intervals`;
* query texts: `_generate_query_texts` — one per `range(num_unique_queries)`
  iteration;
* queries: `_generate_queries` — `rng.integers(1, 3)` instances per text;
* plans: `_generate_plans` — `rng.integers(*num_plans_per_query_range)`
  per query;
* runtime stats: `_generate_runtime_statistics` — per plan an activity
  probability `uniform(0.3, 1.0)`, and per interval one record unless
  `rng.random() > probability`;
* wait stats: `_generate_wait_statistics` — `rng.integers(1, 5)` wait
  categories per runtime-stats record.

All randomness of a run flows from the single generator
`np.random.default_rng(config.random_seed)` (plus `Faker.seed`, which only
affects query-text contents, never counts).  `RngStream` models that
seeded generator as deterministic families of draws indexed by the entity
ordinals at each draw site; a seeding function `ℤ → RngStream` models
`default_rng`.  `Int.toNat` reflects Python `range(n)` being empty for
`n ≤ 0`. -/

structure RngStream where
  num_queries_draw : ℕ → ℤ
  num_plans_draw : ℕ → ℤ
  activity_probability_draw : ℕ → ℚ
  interval_skip_draw : ℕ → ℕ → ℚ
  num_wait_categories_draw : ℕ → ℤ

structure EntityCounts where
  intervals : ℕ
  query_texts : ℕ
  queries : ℕ
  plans : ℕ
  runtime_stats : ℕ
  wait_stats : ℕ
  deriving DecidableEq, Repr

def runCounts (rngOf : ℤ → RngStream) (cfg : GeneratorConfig) : EntityCounts :=
  let rng := rngOf cfg.random_seed
  let nIntervals := (generate_time_intervals cfg).length
  let nTexts := cfg.num_unique_queries.toNat
  let nQueries := ((List.range nTexts).map
    (fun i => (rng.num_queries_draw i).toNat)).sum
  let nPlans := ((List.range nQueries).map
    (fun j => (rng.num_plans_draw j).toNat)).sum
  let nStats := ((List.range nPlans).map (fun p =>
    ((List.range nIntervals).filter (fun k =>
      decide (rng.interval_skip_draw p k ≤ rng.activity_probability_draw p))).length)).sum
  let nWaits := ((List.range nStats).map
    (fun s => (rng.num_wait_categories_draw s).toNat)).sum
  { intervals := nIntervals, query_texts := nTexts, queries := nQueries,
    plans := nPlans, runtime_stats := nStats, wait_stats := nWaits }

/-- `SyntheticDMVGenerator.__init__` followed by `generate`, as seen from
the caller: construction resolves `config.workload_type` through
`get_workload_by_name` (the only raising operation on this path — neither
`__init__` nor any of the six stages validates the time range or the query
count), then the six stages run to completion. -/
def runGenerator (rngOf : ℤ → RngStream) (cfg : GeneratorConfig) :
    Except String EntityCounts :=
  match get_workload_by_name cfg.workload_type with
  | Except.error e => Except.error e
  | Except.ok _ => Except.ok (runCounts rngOf cfg)

/-! ## Validators

Embedding of `utils/validators.py`, `validate_positive` (lines 6-9). -/

def validate_positive (value : ℚ) (name : String) : Except String Unit :=
  if value < 0 then
    Except.error (name ++ " must be positive, got " ++ toString value)
  else
    Except.ok ()

/-! ## Delimited-text export and the analyzer's parser

Embedding of `TextExporter` (`exporters/text_exporter.py`) and
`DMVFileParser.parse_file` (`analyzers/dmv_parser.py`), at the level of
file contents (a `String`).  Records are serialized by
`to_delimited_string`, which in every entity model
(`models/*.py`) is `delimiter.join(...)` over the stringified field
values; the exporter writes a UTF-8 BOM and then one line per record.

`parse_file` opens the file with `utf-8-sig` (stripping the BOM), reads
the first line to count columns and returns `[]` if it `strip()`s to
nothing, then counts the rows produced by `csv.DictReader` over the whole
file.  The row count of `csv.DictReader` (default dialect: quote
character `"`, doubled-quote escaping, rows that parse to no fields at
all are skipped) is modelled by the state machine `csvStep`:

* `fieldStart` — at the beginning of a field; a quote here opens a quoted
  section;
* `unquoted` — inside an unquoted field; quote characters are literal;
* `quoted` — inside a quoted section; delimiters and newlines are data;
* `quoteInQuoted` — just saw a quote inside a quoted section (either the
  closing quote or the first half of an escaped pair).

The `Bool` component records whether the current row has consumed any
character (Python's `csv` yields `[]` only for a line with no characters,
and `DictReader` skips such rows); the `ℕ` component counts finished
rows.  A final unterminated row with at least one character is still
yielded at end of input. -/

/-- C9: for each of the eight predefined `WorkloadScenario` constants in
the catalog, the proportions in its `query_profiles` list sum to 1.0
within a tolerance of 1e-5 (in fact exactly 1). -/
theorem C9_proportions_sum_to_one :
    ∀ w ∈ workloadCatalog, |sumProportions w - 1| ≤ 1 / 100000 := by
  intro w hw
  simp only [workloadCatalog, List.mem_cons, List.not_mem_nil, or_false] at hw
  rcases hw with rfl | rfl | rfl | rfl | rfl | rfl | rfl | rfl <;>
    norm_num [sumProportions, OLTP_WORKLOAD, OLAP_WORKLOAD, MIXED_WORKLOAD,
      CPU_PRESSURE_WORKLOAD, IO_BOTTLENECK_WORKLOAD, MEMORY_PRESSURE_WORKLOAD,
      BLOCKING_WORKLOAD, PARAMETER_SNIFFING_WORKLOAD]

theorem C9_witness :
    OLTP_WORKLOAD ∈ workloadCatalog ∧
      |sumProportions OLTP_WORKLOAD - 1| ≤ 1 / 100000 :=
  ⟨by simp [workloadCatalog],
   C9_proportions_sum_to_one OLTP_WORKLOAD (by simp [workloadCatalog])⟩

/-- C10: `validate_positive(value, name)` raises `ValueError` exactly when
`value < 0`; in particular `validate_positive(0, name)` returns normally,
so zero passes the "must be positive" check. -/
theorem C10_validate_positive_raises_iff_negative (v : ℚ) (name : String) :
    ((∃ msg, validate_positive v name = Except.error msg) ↔ v < 0) ∧
      validate_positive 0 name = Except.ok () := by
  constructor
  · constructor
    · rintro ⟨msg, hmsg⟩
      by_contra hv
      simp [validate_positive, hv] at hmsg
    · intro hv
      exact ⟨name ++ " must be positive, got " ++ toString v, by
        simp [validate_positive, hv]⟩
  · simp [validate_positive]

/-- Helper for C4: the dict lookup in `get_workload_by_name` misses exactly
when the lowered name is outside the eight known keys. -/
theorem workloadFor_eq_none_iff (s : String) :
    workloadFor s = none ↔ s ∉ list_available_workloads := by
  unfold workloadFor list_available_workloads
  split_ifs with h1 h2 h3 h4 h5 h6 h7 h8 <;> simp_all

/-- C4: `get_workload_by_name(name)` raises a `ValueError` whose message
lists the eight valid workload identifiers iff `name.lower()` is not one
of them; otherwise it returns the scenario the lookup dict maps the
lowered name to; and `list_available_workloads` returns exactly those
eight names. -/
theorem C4_get_workload_by_name_spec :
    list_available_workloads =
      ["oltp", "olap", "mixed", "cpu_pressure", "io_bottleneck",
       "memory_pressure", "blocking", "parameter_sniffing"] ∧
    ∀ name : String,
      (pyLower name ∈ list_available_workloads →
        ∃ w, workloadFor (pyLower name) = some w ∧
          get_workload_by_name name = Except.ok w) ∧
      (pyLower name ∉ list_available_workloads →
        get_workload_by_name name = Except.error
          ("Unknown workload \x27" ++ name ++ "\x27. Available: " ++
            String.intercalate ", " list_available_workloads)) := by
  refine ⟨rfl, fun name => ⟨fun hmem => ?_, fun hmem => ?_⟩⟩
  · have hne : workloadFor (pyLower name) ≠ none := by
      intro h
      exact ((workloadFor_eq_none_iff _).mp h) hmem
    obtain ⟨w, hw⟩ := Option.ne_none_iff_exists'.mp hne
    exact ⟨w, hw, by simp [get_workload_by_name, hw]⟩
  · have hn : workloadFor (pyLower name) = none :=
      (workloadFor_eq_none_iff _).mpr hmem
    simp [get_workload_by_name, hn]

theorem C4_witness :
    (pyLower "MIXED" ∈ list_available_workloads ∧
      ∃ w, workloadFor (pyLower "MIXED") = some w ∧
        get_workload_by_name "MIXED" = Except.ok w) ∧
    (pyLower "bogus" ∉ list_available_workloads ∧
      get_workload_by_name "bogus" = Except.error
        ("Unknown workload \x27" ++ "bogus" ++ "\x27. Available: " ++
          String.intercalate ", " list_available_workloads)) :=
  ⟨⟨by decide, ((C4_get_workload_by_name_spec.2 "MIXED").1 (by decide))⟩,
   ⟨by decide, ((C4_get_workload_by_name_spec.2 "bogus").2 (by decide))⟩⟩

/-- C3: two invocations of `generate` with identical `GeneratorConfig`
(including `random_seed`) produce identical counts of intervals, query
texts, queries, plans, runtime-stats rows and wait-stats rows.  All
randomness is drawn from the stream the seeding function derives from
`config.random_seed`, so the counts are a function of the configuration
alone. -/
theorem C3_generate_deterministic (rngOf : ℤ → RngStream)
    (cfg1 cfg2 : GeneratorConfig) (h : cfg1 = cfg2) :
    runCounts rngOf cfg1 = runCounts rngOf cfg2 := by rw [h]

/-- A concrete deterministic stream used to evaluate the pipeline. -/
def demoRng : RngStream :=
  { num_queries_draw := fun _ => 1
    num_plans_draw := fun _ => 1
    activity_probability_draw := fun _ => 1
    interval_skip_draw := fun _ _ => 0
    num_wait_categories_draw := fun _ => 1 }

/-- A concrete valid configuration (times in microseconds). -/
def demoCfg : GeneratorConfig :=
  { start_time := 0, end_time := 2, interval_hours := 1,
    num_unique_queries := 3, num_plans_per_query_low := 1,
    num_plans_per_query_high := 3, executions_per_hour_low := 10,
    executions_per_hour_high := 1000, workload_type := "mixed",
    cpu_pressure_factor := 1, io_pressure_factor := 1,
    memory_pressure_factor := 1, proportion_oltp := 0.7,
    proportion_olap := 0.2, proportion_problematic := 0.1,
    random_seed := 42, output_directory := "./synthetic_output",
    delimiter := ";" }

theorem C3_witness :
    demoCfg = demoCfg ∧
      runCounts (fun _ => demoRng) demoCfg = runCounts (fun _ => demoRng) demoCfg :=
  ⟨rfl, C3_generate_deterministic (fun _ => demoRng) demoCfg demoCfg rfl⟩

/-- Malformed configuration: non-positive unique-query count. -/
def zeroQueriesCfg : GeneratorConfig := { demoCfg with num_unique_queries := 0 }

/-- Malformed configuration: `end_time` not after `start_time`. -/
def reversedTimesCfg : GeneratorConfig :=
  { demoCfg with start_time := 2, end_time := 0 }

/-- C5 (evaluation at the failing inputs): with `num_unique_queries = 0`
or with `end_time ≤ start_time`, constructing the generator and calling
`generate` does NOT raise — it completes the run normally, returning
empty entity collections (zero query texts, respectively zero
intervals).  No stage of `generate`, and no `GeneratorConfig`
post-processing, validates either value. -/
theorem C5_generate_completes_on_invalid_config :
    runGenerator (fun _ => demoRng) zeroQueriesCfg =
      Except.ok { intervals := 1, query_texts := 0, queries := 0, plans := 0,
                  runtime_stats := 0, wait_stats := 0 } ∧
    runGenerator (fun _ => demoRng) reversedTimesCfg =
      Except.ok { intervals := 0, query_texts := 3, queries := 3, plans := 3,
                  runtime_stats := 0, wait_stats := 0 } :=
  ⟨rfl, rfl⟩

/-- The `min ≤ avg ≤ max` / `min ≤ last ≤ max` contract of one
statistical quadruple (the contract `validate_stats_consistency` in
`utils/validators.py` asserts). -/
def statQuadrupleOk (mn av la mx : ℚ) : Prop :=
  mn ≤ av ∧ av ≤ mx ∧ mn ≤ la ∧ la ≤ mx

/-- All six statistical quadruples of a `RuntimeStats` record named by the
claim (duration, cpu, logical reads, physical reads, memory, rowcount). -/
def runtimeStatsQuadruplesOk (st : RuntimeStats) : Prop :=
  statQuadrupleOk st.min_duration st.avg_duration st.last_duration
    st.max_duration ∧
  statQuadrupleOk st.min_cpu_time st.avg_cpu_time st.last_cpu_time
    st.max_cpu_time ∧
  statQuadrupleOk st.min_logical_io_reads st.avg_logical_io_reads
    st.last_logical_io_reads st.max_logical_io_reads ∧
  statQuadrupleOk st.min_physical_io_reads st.avg_physical_io_reads
    st.last_physical_io_reads st.max_physical_io_reads ∧
  statQuadrupleOk st.min_query_max_used_memory st.avg_query_max_used_memory
    st.last_query_max_used_memory st.max_query_max_used_memory ∧
  statQuadrupleOk st.min_rowcount st.avg_rowcount st.last_rowcount
    st.max_rowcount

/-- The wait-time-ms statistical quadruple of a `WaitStats` record. -/
def waitStatsQuadrupleOk (wst : WaitStats) : Prop :=
  statQuadrupleOk wst.min_query_wait_time_ms wst.avg_query_wait_time_ms
    wst.last_query_wait_time_ms wst.max_query_wait_time_ms

/-- C2: every statistical quadruple of a generated `RuntimeStats` record
(duration, cpu, logical reads, physical reads, memory, rowcount) and of a
generated `WaitStats` record (wait-time ms) satisfies `min ≤ avg ≤ max`
and `min ≤ last ≤ max`.  The sample arrays are always non-empty in the
source (`exec_count = max(1, ...)` and the wait samples have length
`count_executions`), which is the nonemptiness hypothesis here. -/
theorem C2_stat_quadruples_consistent
    (rid pid iid wcid : ℕ) (wcat : String) (fe le stdev : ℚ) (n : ℕ)
    (ds cs ls ps ms rs ws : List ℚ)
    (hd : ds ≠ []) (hc : cs ≠ []) (hl : ls ≠ []) (hp : ps ≠ [])
    (hm : ms ≠ []) (hr : rs ≠ []) (hw : ws ≠ []) :
    runtimeStatsQuadruplesOk (mkRuntimeStats rid pid iid fe le n ds cs ls ps ms rs) ∧
      waitStatsQuadrupleOk (mkWaitStats pid iid wcid wcat ws stdev) := by
  exact ⟨⟨⟨minList_le_avgList hd, avgList_le_maxList hd,
           minList_le_lastList hd, lastList_le_maxList hd⟩,
          ⟨minList_le_avgList hc, avgList_le_maxList hc,
           minList_le_lastList hc, lastList_le_maxList hc⟩,
          ⟨minList_le_avgList hl, avgList_le_maxList hl,
           minList_le_lastList hl, lastList_le_maxList hl⟩,
          ⟨minList_le_avgList hp, avgList_le_maxList hp,
           minList_le_lastList hp, lastList_le_maxList hp⟩,
          ⟨minList_le_avgList hm, avgList_le_maxList hm,
           minList_le_lastList hm, lastList_le_maxList hm⟩,
          ⟨minList_le_avgList hr, avgList_le_maxList hr,
           minList_le_lastList hr, lastList_le_maxList hr⟩⟩,
         ⟨minList_le_avgList hw, avgList_le_maxList hw,
          minList_le_lastList hw, lastList_le_maxList hw⟩⟩

theorem C2_witness :
    (([3, 1, 2] : List ℚ) ≠ [] ∧ ([2] : List ℚ) ≠ [] ∧ ([5, 4] : List ℚ) ≠ [] ∧
      ([1] : List ℚ) ≠ [] ∧ ([7] : List ℚ) ≠ [] ∧ ([9] : List ℚ) ≠ [] ∧
      ([6, 8] : List ℚ) ≠ []) ∧
    runtimeStatsQuadruplesOk
      (mkRuntimeStats 1 2 3 0 1 4 [3, 1, 2] [2] [5, 4] [1] [7] [9]) ∧
    waitStatsQuadrupleOk (mkWaitStats 2 3 4 "Memory" [6, 8] 1) :=
  ⟨⟨by simp, by simp, by simp, by simp, by simp, by simp, by simp⟩,
   C2_stat_quadruples_consistent 1 2 3 4 "Memory" 0 1 1 4 [3, 1, 2] [2] [5, 4]
     [1] [7] [9] [6, 8] (by simp) (by simp) (by simp) (by simp) (by simp)
     (by simp) (by simp)⟩

/-- C7: the execution times generated by `_generate_execution_times` for
a record with `num_executions ≥ 1` satisfy
`interval.start ≤ first_execution_time ≤ last_execution_time ≤ interval.end`
(the pair is stored verbatim in the `RuntimeStats` record by
`mkRuntimeStats`), given the draw ranges guaranteed by the `rng.uniform`
calls of the source: `uniform(0, d)`, `uniform(0, 0.2 * d)` and
`uniform(0.8 * d, d)` with `d = interval_end - interval_start`. -/
theorem C7_execution_times_within_interval
    (s e : ℚ) (hse : s ≤ e) (n : ℕ) (hn : 1 ≤ n)
    (d1 d2 d3 : ℚ)
    (h1 : 0 ≤ d1 ∧ d1 ≤ e - s)
    (h2 : 0 ≤ d2 ∧ d2 ≤ 0.2 * (e - s))
    (h3 : 0.8 * (e - s) ≤ d3 ∧ d3 ≤ e - s) :
    s ≤ (generate_execution_times s e n d1 d2 d3).1 ∧
      (generate_execution_times s e n d1 d2 d3).1 ≤
        (generate_execution_times s e n d1 d2 d3).2 ∧
      (generate_execution_times s e n d1 d2 d3).2 ≤ e := by
  have hd : (0 : ℚ) ≤ e - s := by linarith
  by_cases h : n = 1
  · have ht : generate_execution_times s e n d1 d2 d3 = (s + d1, s + d1) := by
      simp [generate_execution_times, h]
    rw [ht]
    exact ⟨by dsimp only; linarith [h1.1], by dsimp only; linarith,
           by dsimp only; linarith [h1.2]⟩
  · have ht : generate_execution_times s e n d1 d2 d3 = (s + d2, s + d3) := by
      simp [generate_execution_times, h]
    rw [ht]
    exact ⟨by dsimp only; linarith [h2.1],
           by dsimp only; linarith [h2.2, h3.1, hd],
           by dsimp only; linarith [h3.2]⟩

theorem C7_witness :
    ((0 : ℚ) ≤ 10 ∧ (1 : ℚ) ≤ 2 ∧
      ((0 : ℚ) ≤ 5 ∧ (5 : ℚ) ≤ 10 - 0) ∧
      ((0 : ℚ) ≤ 1 ∧ (1 : ℚ) ≤ 0.2 * (10 - 0)) ∧
      ((0.8 : ℚ) * (10 - 0) ≤ 9 ∧ (9 : ℚ) ≤ 10 - 0)) ∧
    ((0 : ℚ) ≤ (generate_execution_times 0 10 2 5 1 9).1 ∧
      (generate_execution_times 0 10 2 5 1 9).1 ≤
        (generate_execution_times 0 10 2 5 1 9).2 ∧
      (generate_execution_times 0 10 2 5 1 9).2 ≤ 10) :=
  ⟨⟨by norm_num, by norm_num, by norm_num, by norm_num, by norm_num⟩,
   C7_execution_times_within_interval 0 10 (by norm_num) 2 (by norm_num)
     5 1 9 (by norm_num) (by norm_num) (by norm_num)⟩

/-- Once `current_time` has reached `end_time`, the interval loop stops. -/
theorem genIntervalsAux_stop (endT step : ℤ) (fuel : ℕ) (cur : ℤ) (id : ℕ)
    (h : ¬ cur < endT) : genIntervalsAux endT step fuel cur id = [] := by
  cases fuel <;> simp [genIntervalsAux, h]

/-- Invariant of the interval-generation loop: starting below `end_time`
with enough fuel, the produced list is non-empty, starts at the current
time with the current id, ends every interval at
`min (start + step) end_time`, chains starts to previous ends, ends the
last interval exactly at `end_time`, and numbers the intervals
consecutively. -/
theorem genIntervalsAux_spec (endT step : ℤ) (hstep : 0 < step) :
    ∀ (fuel : ℕ) (cur : ℤ) (id : ℕ), cur < endT → (endT - cur).toNat ≤ fuel →
      (genIntervalsAux endT step fuel cur id ≠ [] ∧
       (genIntervalsAux endT step fuel cur id).head? =
         some (id, cur, min (cur + step) endT) ∧
       (∀ x ∈ genIntervalsAux endT step fuel cur id,
         x.2.2 = min (x.2.1 + step) endT) ∧
       List.Chain' (fun a b : ℕ × ℤ × ℤ => a.2.2 = b.2.1)
         (genIntervalsAux endT step fuel cur id) ∧
       (∀ h : genIntervalsAux endT step fuel cur id ≠ [],
         ((genIntervalsAux endT step fuel cur id).getLast h).2.2 = endT) ∧
       (genIntervalsAux endT step fuel cur id).map Prod.fst =
         List.range' id (genIntervalsAux endT step fuel cur id).length) := by
  intro fuel
  induction fuel with
  | zero => intro cur id hcur hfuel; exfalso; omega
  | succ fuel ih =>
    intro cur id hcur hfuel
    by_cases hnear : endT ≤ cur + step
    · -- last interval: `min (cur + step) endT = endT`, the recursion stops
      have hmin : min (cur + step) endT = endT := min_eq_right hnear
      have hrec : genIntervalsAux endT step fuel (min (cur + step) endT) (id + 1) = [] := by
        apply genIntervalsAux_stop
        omega
      have hlist : genIntervalsAux endT step (fuel + 1) cur id =
          [(id, cur, min (cur + step) endT)] := by
        simp [genIntervalsAux, hcur, hrec]
      rw [hlist]
      refine ⟨by simp, by simp, ?_, by simp, ?_, by simp [List.range']⟩
      · intro x hx
        simp at hx
        subst hx
        simp
      · intro h
        simp [hmin]
    · -- inner interval: recurse from `cur + step`
      push_neg at hnear
      have hmin : min (cur + step) endT = cur + step := min_eq_left (le_of_lt hnear)
      have hfuel2 : (endT - (cur + step)).toNat ≤ fuel := by omega
      obtain ⟨tne, thead, tall, tchain, tlast, tmap⟩ :=
        ih (cur + step) (id + 1) hnear hfuel2
      have hlist : genIntervalsAux endT step (fuel + 1) cur id =
          (id, cur, min (cur + step) endT) ::
            genIntervalsAux endT step fuel (cur + step) (id + 1) := by
        simp [genIntervalsAux, hcur, hmin]
      rw [hlist]
      obtain ⟨t0, rest, hrest⟩ := List.exists_cons_of_ne_nil tne
      refine ⟨by simp, by simp, ?_, ?_, ?_, ?_⟩
      · intro x hx
        rcases List.mem_cons.mp hx with h | h
        · subst h; simp [hmin]
        · exact tall x h
      · rw [hrest] at tchain thead ⊢
        refine List.Chain'.cons ?_ tchain
        have : t0 = (id + 1, cur + step, min (cur + step + step) endT) := by
          simpa using thead
        simp [this, hmin]
      · intro h
        have hres : genIntervalsAux endT step fuel (cur + step) (id + 1) ≠ [] := tne
        rw [List.getLast_cons hres]
        exact tlast hres
      · simp only [List.map_cons, List.length_cons]
        rw [tmap, List.range'_succ]

/-- C6: for any configuration with `start_time < end_time` and
`interval_hours > 0`, `_generate_time_intervals` returns a non-empty list
of `(id, start, end)` tuples that exactly tiles
`[start_time, end_time)`: the first interval starts at `start_time` with
id 1, every interval ends at `min (start + interval_hours, end_time)`,
each interval starts where the previous one ends, the last interval ends
exactly at `end_time`, and the ids are consecutive starting at 1. -/
theorem C6_intervals_tile_time_range (cfg : GeneratorConfig)
    (hlt : cfg.start_time < cfg.end_time) (hh : 0 < cfg.interval_hours) :
    generate_time_intervals cfg ≠ [] ∧
    (generate_time_intervals cfg).head? = some (1, cfg.start_time,
      min (cfg.start_time + cfg.interval_hours * microsecondsPerHour) cfg.end_time) ∧
    (∀ x ∈ generate_time_intervals cfg,
      x.2.2 = min (x.2.1 + cfg.interval_hours * microsecondsPerHour) cfg.end_time) ∧
    List.Chain' (fun a b : ℕ × ℤ × ℤ => a.2.2 = b.2.1)
      (generate_time_intervals cfg) ∧
    (∀ h : generate_time_intervals cfg ≠ [],
      ((generate_time_intervals cfg).getLast h).2.2 = cfg.end_time) ∧
    (generate_time_intervals cfg).map Prod.fst =
      List.range' 1 (generate_time_intervals cfg).length := by
  have hstep : 0 < cfg.interval_hours * microsecondsPerHour := by
    have hm : (0 : ℤ) < microsecondsPerHour := by norm_num [microsecondsPerHour]
    exact mul_pos hh hm
  exact genIntervalsAux_spec cfg.end_time _ hstep _ cfg.start_time 1 hlt (by omega)

theorem C6_witness :
    (demoCfg.start_time < demoCfg.end_time ∧ 0 < demoCfg.interval_hours) ∧
    (generate_time_intervals demoCfg ≠ [] ∧
     (generate_time_intervals demoCfg).head? = some (1, demoCfg.start_time,
       min (demoCfg.start_time + demoCfg.interval_hours * microsecondsPerHour)
         demoCfg.end_time) ∧
     (∀ x ∈ generate_time_intervals demoCfg,
       x.2.2 = min (x.2.1 + demoCfg.interval_hours * microsecondsPerHour)
         demoCfg.end_time) ∧
     List.Chain' (fun a b : ℕ × ℤ × ℤ => a.2.2 = b.2.1)
       (generate_time_intervals demoCfg) ∧
     (∀ h : generate_time_intervals demoCfg ≠ [],
       ((generate_time_intervals demoCfg).getLast h).2.2 = demoCfg.end_time) ∧
     (generate_time_intervals demoCfg).map Prod.fst =
       List.range' 1 (generate_time_intervals demoCfg).length) :=
  ⟨⟨by decide, by decide⟩,
   C6_intervals_tile_time_range demoCfg (by decide) (by decide)⟩

/-- Pointwise domination transfers to `minList`. -/
theorem forall2_minList_le {l1 l2 : List ℚ}
    (h : List.Forall₂ (· ≤ ·) l1 l2) : minList l1 ≤ minList l2 := by
  induction h with
  | nil => simp [minList]
  | cons hab htail ih =>
    rename_i a b as bs
    cases htail with
    | nil => simpa [minList] using hab
    | cons hcd htl =>
      simp only [minList]
      exact min_le_min hab ih

/-- Pointwise domination transfers to `maxList`. -/
theorem forall2_maxList_le {l1 l2 : List ℚ}
    (h : List.Forall₂ (· ≤ ·) l1 l2) : maxList l1 ≤ maxList l2 := by
  induction h with
  | nil => simp [maxList]
  | cons hab htail ih =>
    rename_i a b as bs
    cases htail with
    | nil => simpa [maxList] using hab
    | cons hcd htl =>
      simp only [maxList]
      exact max_le_max hab ih

/-- Pointwise domination transfers to `lastList`. -/
theorem forall2_lastList_le {l1 l2 : List ℚ}
    (h : List.Forall₂ (· ≤ ·) l1 l2) : lastList l1 ≤ lastList l2 := by
  induction h with
  | nil => simp [lastList]
  | cons hab htail ih =>
    rename_i a b as bs
    cases htail with
    | nil => simpa [lastList] using hab
    | cons hcd htl =>
      simpa only [lastList] using ih

/-- Pointwise domination transfers to sums. -/
theorem forall2_sum_le {l1 l2 : List ℚ}
    (h : List.Forall₂ (· ≤ ·) l1 l2) : l1.sum ≤ l2.sum := by
  induction h with
  | nil => simp
  | cons hab htail ih => simpa using add_le_add hab ih

/-- Pointwise domination transfers to `avgList` (the lists have the same
length, being related by `Forall₂`). -/
theorem forall2_avgList_le {l1 l2 : List ℚ}
    (h : List.Forall₂ (· ≤ ·) l1 l2) : avgList l1 ≤ avgList l2 := by
  rcases eq_or_ne l1 [] with rfl | hne
  · cases h
    simp [avgList]
  · have hlen : l1.length = l2.length := h.length_eq
    have hpos : (0 : ℚ) < (l1.length : ℚ) := by
      have : 0 < l1.length := List.length_pos.mpr hne
      exact_mod_cast this
    rw [avgList, avgList, ← hlen]
    exact div_le_div_of_nonneg_right (forall2_sum_le h) hpos.le |>.trans_eq rfl

/-- The scaled CPU samples are pointwise dominated by the scaled duration
samples whenever `io_pressure ≥ 0.95` (the upper end of the per-sample
CPU ratio range) and `cpu_pressure ≥ 0`. -/
theorem scaled_cpu_forall2_le (cp iop : ℚ) (hcp : 0 ≤ cp) (hiop : 0.95 ≤ iop) :
    ∀ (ds us : List ℚ), ds.length = us.length → (∀ d ∈ ds, 0 ≤ d) →
      (∀ u ∈ us, u ≤ 0.95) →
      List.Forall₂ (· ≤ ·)
        ((cpu_from_duration ds us).map (fun c => c * cp))
        (ds.map (fun d => d * (cp * iop))) := by
  intro ds
  induction ds with
  | nil => intro us _ _ _; simp [cpu_from_duration]
  | cons d ds ih =>
    intro us hlen hd hu
    cases us with
    | nil => simp at hlen
    | cons u us =>
      simp only [cpu_from_duration, List.zipWith_cons_cons, List.map_cons]
      refine List.Forall₂.cons ?_ ?_
      · have hd0 : 0 ≤ d := hd d (by simp)
        have hu0 : u ≤ 0.95 := hu u (by simp)
        have huiop : u ≤ iop := le_trans hu0 hiop
        calc d * u * cp ≤ d * iop * cp := by
              apply mul_le_mul_of_nonneg_right _ hcp
              exact mul_le_mul_of_nonneg_left huiop hd0
          _ = d * (cp * iop) := by ring
      · exact ih us (by simpa using hlen) (fun x hx => hd x (by simp [hx]))
          (fun x hx => hu x (by simp [hx]))

/-- C1 counterexample: under the catalog's OLTP workload
(`cpu_pressure = 0.8`, `io_pressure = 0.7`) the claim fails.  With a
single duration sample of 1000 µs and a CPU ratio draw of 0.9 (inside the
`uniform(0.6, 0.95)` range), line 204 scales the duration by
`0.8 × 0.7 = 0.56` while line 205 scales the CPU time by `0.8` only, so
the record has `avg_cpu_time = 720 > 560 = avg_duration`. -/
theorem C1_counterexample :
    OLTP_WORKLOAD ∈ workloadCatalog ∧
    (0.6 : ℚ) ≤ 0.9 ∧ (0.9 : ℚ) < 0.95 ∧
    ¬ (mkRuntimeStats 1 1 1 0 0 1
        (applyPressureFactors OLTP_WORKLOAD [1000]
          (cpu_from_duration [1000] [0.9])).1
        (applyPressureFactors OLTP_WORKLOAD [1000]
          (cpu_from_duration [1000] [0.9])).2
        [1] [1] [1] [1]).avg_cpu_time ≤
      (mkRuntimeStats 1 1 1 0 0 1
        (applyPressureFactors OLTP_WORKLOAD [1000]
          (cpu_from_duration [1000] [0.9])).1
        (applyPressureFactors OLTP_WORKLOAD [1000]
          (cpu_from_duration [1000] [0.9])).2
        [1] [1] [1] [1]).avg_duration := by
  refine ⟨by simp [workloadCatalog], by norm_num, by norm_num, ?_⟩
  simp only [mkRuntimeStats, applyPressureFactors, cpu_from_duration,
    OLTP_WORKLOAD, List.zipWith_cons_cons, List.zipWith_nil_right,
    List.map_cons, List.map_nil, avgList, List.sum_cons, List.sum_nil,
    List.length_cons, List.length_nil]
  norm_num

/-- C1 amended: for every catalog workload except `OLTP_WORKLOAD` (these
all have `io_pressure ≥ 0.95`, while OLTP has `io_pressure = 0.7`), every
`RuntimeStats` record built from non-negative duration samples and CPU
ratio draws in the `uniform(0.6, 0.95)` range satisfies
`avg_cpu_time ≤ avg_duration`, and the same pointwise for the last, min
and max CPU-versus-duration fields. -/
theorem C1_amended_cpu_le_duration
    (w : WorkloadScenario) (hw : w ∈ workloadCatalog) (hne : w ≠ OLTP_WORKLOAD)
    (ds us : List ℚ) (hlen : ds.length = us.length)
    (hd : ∀ d ∈ ds, 0 ≤ d) (hu : ∀ u ∈ us, 0.6 ≤ u ∧ u < 0.95)
    (rid pid iid : ℕ) (fe le : ℚ) (n : ℕ) (ls ps ms rs : List ℚ) :
    let scaled := applyPressureFactors w ds (cpu_from_duration ds us)
    let st := mkRuntimeStats rid pid iid fe le n scaled.1 scaled.2 ls ps ms rs
    st.avg_cpu_time ≤ st.avg_duration ∧
      st.last_cpu_time ≤ st.last_duration ∧
      st.min_cpu_time ≤ st.min_duration ∧
      st.max_cpu_time ≤ st.max_duration := by
  intro scaled st
  have hpres : 0 ≤ w.cpu_pressure ∧ (0.95 : ℚ) ≤ w.io_pressure := by
    simp only [workloadCatalog, List.mem_cons, List.not_mem_nil, or_false] at hw
    rcases hw with rfl | rfl | rfl | rfl | rfl | rfl | rfl | rfl
    · exact absurd rfl hne
    all_goals constructor <;>
      norm_num [OLAP_WORKLOAD, MIXED_WORKLOAD, CPU_PRESSURE_WORKLOAD,
        IO_BOTTLENECK_WORKLOAD, MEMORY_PRESSURE_WORKLOAD, BLOCKING_WORKLOAD,
        PARAMETER_SNIFFING_WORKLOAD]
  have hf2 : List.Forall₂ (· ≤ ·) scaled.2 scaled.1 :=
    scaled_cpu_forall2_le w.cpu_pressure w.io_pressure hpres.1 hpres.2 ds us
      hlen hd (fun u hu2 => le_of_lt (hu u hu2).2)
  exact ⟨forall2_avgList_le hf2, forall2_lastList_le hf2,
         forall2_minList_le hf2, forall2_maxList_le hf2⟩

theorem C1_witness :
    (OLAP_WORKLOAD ∈ workloadCatalog ∧ OLAP_WORKLOAD ≠ OLTP_WORKLOAD ∧
      ([1000, 2000] : List ℚ).length = ([0.9, 0.6] : List ℚ).length ∧
      (∀ d ∈ ([1000, 2000] : List ℚ), 0 ≤ d) ∧
      (∀ u ∈ ([0.9, 0.6] : List ℚ), 0.6 ≤ u ∧ u < 0.95)) ∧
    (let scaled := applyPressureFactors OLAP_WORKLOAD [1000, 2000]
       (cpu_from_duration [1000, 2000] [0.9, 0.6])
     let st := mkRuntimeStats 1 1 1 0 0 2 scaled.1 scaled.2 [1] [1] [1] [1]
     st.avg_cpu_time ≤ st.avg_duration ∧
       st.last_cpu_time ≤ st.last_duration ∧
       st.min_cpu_time ≤ st.min_duration ∧
       st.max_cpu_time ≤ st.max_duration) :=
  ⟨⟨by simp [workloadCatalog],
    by simp [OLAP_WORKLOAD, OLTP_WORKLOAD],
    by simp,
    by intro d hd; rcases List.mem_cons.mp hd with rfl | hd2
       · norm_num
       · rcases List.mem_cons.mp hd2 with rfl | hd3
         · norm_num
         · simp at hd3,
    by intro u hu; rcases List.mem_cons.mp hu with rfl | hu2
       · norm_num
       · rcases List.mem_cons.mp hu2 with rfl | hu3
         · norm_num
         · simp at hu3⟩,
   C1_amended_cpu_le_duration OLAP_WORKLOAD (by simp [workloadCatalog])
     (by simp [OLAP_WORKLOAD, OLTP_WORKLOAD]) [1000, 2000] [0.9, 0.6]
     (by simp)
     (by intro d hd; rcases List.mem_cons.mp hd with rfl | hd2
         · norm_num
         · rcases List.mem_cons.mp hd2 with rfl | hd3
           · norm_num
           · simp at hd3)
     (by intro u hu; rcases List.mem_cons.mp hu with rfl | hu2
         · norm_num
         · rcases List.mem_cons.mp hu2 with rfl | hu3
           · norm_num
           · simp at hu3)
     1 1 1 0 0 2 [1] [1] [1] [1]⟩

